import Mathlib

/-!
Verification development for the expense-tracker repository.

The definitions below are a shallow embedding of the report aggregation and
export pipeline found in src/src/components/BudgetForm.js (the Reports
component) and of the budget-status derivation in
src/src/context/ExpenseContext.js.  JavaScript numbers are modelled as exact
rationals (Rat); JavaScript Date values are modelled as calendar dates
(year, 0-based month, 1-based day), compared through an order-preserving
integer key.  Dictionaries keyed by day / month / category are modelled as
functions from the key to the summed amount, and iteration order of
Object.keys is modelled by the first-occurrence order of keys.
-/

/-- A calendar date as produced by the JavaScript Date accessors used in the
source: getFullYear, getMonth (0-based), getDate (1-based). -/
structure Date where
  year : Int
  month : Nat
  day : Nat
deriving Repr, DecidableEq

/-- Linear key that orders valid calendar dates chronologically, standing in
for the numeric comparison of JavaScript Date objects. -/
def dateKey (d : Date) : Int :=
  d.year * 372 + (d.month * 31 + d.day)

/-- Leap-year rule of the Gregorian calendar, as implemented by the
JavaScript Date object that the source delegates to. -/
def isLeapYear (y : Int) : Bool :=
  y % 4 == 0 && (y % 100 != 0 || y % 400 == 0)

/-- Number of days of a (0-based) month, the value the source obtains from
new Date(year, month + 1, 0).getDate() for month in 0..11. -/
def daysInMonth (year : Int) (month : Nat) : Nat :=
  if month = 1 then (if isLeapYear year then 29 else 28)
  else if month = 3 ∨ month = 5 ∨ month = 8 ∨ month = 10 then 30
  else 31

/-- A date that an actual JavaScript Date can hold: month in 0..11 and day
within the month. -/
def ValidDate (d : Date) : Prop :=
  d.month < 12 ∧ 1 ≤ d.day ∧ d.day ≤ daysInMonth d.year d.month

instance (d : Date) : Decidable (ValidDate d) := by
  unfold ValidDate; infer_instance

/-- An expense record (src/src/context/ExpenseContext.js).  The empty string
for category models an absent category. -/
structure Expense where
  title : String
  amount : Rat
  category : String
  date : Date
  notes : String
  isRecurring : Bool
deriving Repr, DecidableEq

/-- A budget record (src/src/context/ExpenseContext.js). -/
structure Budget where
  category : String
  amount : Rat
  period : String
  notes : String
deriving Repr, DecidableEq

/-- One entry of the fixed category enumeration. -/
structure Category where
  id : String
  name : String
  icon : String
deriving Repr, DecidableEq

/-- EXPENSE_CATEGORIES from src/src/context/ExpenseContext.js lines 16-28. -/
def EXPENSE_CATEGORIES : List Category :=
  [⟨"food", "Food & Dining", "🍔"⟩,
   ⟨"transportation", "Transportation", "🚗"⟩,
   ⟨"housing", "Housing", "🏠"⟩,
   ⟨"utilities", "Utilities", "💡"⟩,
   ⟨"entertainment", "Entertainment", "🎬"⟩,
   ⟨"healthcare", "Healthcare", "🏥"⟩,
   ⟨"shopping", "Shopping", "🛍️"⟩,
   ⟨"travel", "Travel", "✈️"⟩,
   ⟨"education", "Education", "📚"⟩,
   ⟨"personal", "Personal", "👤"⟩,
   ⟨"other", "Other", "📦"⟩]

/-- Sum of the amount fields, the reduce((sum, e) => sum + e.amount, 0)
pattern used throughout the source. -/
def sumAmounts (l : List Expense) : Rat :=
  l.foldl (fun s e => s + e.amount) 0

/-- The category bucket key: expense.category with the uncategorized
fallback (the expense.category or uncategorized pattern of the source). -/
def effectiveCategory (e : Expense) : String :=
  if e.category = "" then "uncategorized" else e.category

/-- The report type selected in the Reports component. -/
inductive ReportType
  | monthly
  | yearly
  | category
deriving Repr, DecidableEq

/-- getFilteredExpenses, src/src/components/BudgetForm.js lines 294-324:
category filter (only when a category is selected, i.e. non-empty) followed
by the time-period filter selected by the report type. -/
def getFilteredExpenses (expenses : List Expense) (category : String)
    (reportType : ReportType) (year : Int) (month : Nat) : List Expense :=
  let base := if category = "" then expenses
              else expenses.filter (fun e => e.category == category)
  match reportType with
  | .monthly => base.filter (fun e => e.date.year == year && e.date.month == month)
  | .yearly => base.filter (fun e => e.date.year == year)
  | .category => base

/-- Chart output: labels paired index-for-index with bucket values. -/
structure ChartSeries (α : Type) where
  labels : List α
  data : List Rat
deriving Repr, DecidableEq

/-- The per-day accumulator dictionary of generateMonthlyReportData, read
back with the or-zero fallback: the summed amount of the expenses dated on
the given day. -/
def expensesByDay (l : List Expense) (day : Nat) : Rat :=
  sumAmounts (l.filter (fun e => e.date.day == day))

/-- generateMonthlyReportData, src/src/components/BudgetForm.js lines
327-360: one bucket per day 1..daysInMonth of the target month. -/
def generateMonthlyReportData (expenses : List Expense) (category : String)
    (year : Int) (month : Nat) : ChartSeries Nat :=
  let filtered := getFilteredExpenses expenses category .monthly year month
  let labels := (List.range (daysInMonth year month)).map (fun i => i + 1)
  { labels := labels
    data := labels.map (fun day => expensesByDay filtered day) }

/-- Month display names used by getMonthName (lines 269-275). -/
def monthNames : List String :=
  ["January", "February", "March", "April", "May", "June",
   "July", "August", "September", "October", "November", "December"]

/-- getMonthName; an out-of-range index interpolates as undefined in the
source. -/
def getMonthName (m : Nat) : String :=
  monthNames.getD m "undefined"

/-- generateYearlyReportData, lines 363-389: a fixed 12-slot array indexed
by month, filled from the filtered expenses. -/
def generateYearlyReportData (expenses : List Expense) (category : String)
    (year : Int) (month : Nat) : ChartSeries String :=
  let filtered := getFilteredExpenses expenses category .yearly year month
  { labels := monthNames
    data := (List.range 12).map
      (fun m => sumAmounts (filtered.filter (fun e => e.date.month == m))) }

/-- First-occurrence order of the category keys of the grouping dictionary
of generateCategoryReportData (Object.keys insertion order). -/
def discoveredCategories (l : List Expense) : List String :=
  l.foldl (fun acc e =>
    let c := effectiveCategory e
    if c ∈ acc then acc else acc ++ [c]) []

/-- Display label of a category bucket (lines 409-412). -/
def categoryChartLabel (catId : String) : String :=
  match EXPENSE_CATEGORIES.find? (fun c => c.id == catId) with
  | some c => c.icon ++ " " ++ c.name
  | none => "Uncategorized"

/-- generateCategoryReportData, lines 392-450: buckets are the categories
present in the filtered subset, in discovery order. -/
def generateCategoryReportData (expenses : List Expense) (category : String)
    (year : Int) (month : Nat) : ChartSeries String :=
  let filtered := getFilteredExpenses expenses category .category year month
  let cats := discoveredCategories filtered
  { labels := cats.map categoryChartLabel
    data := cats.map
      (fun c => sumAmounts (filtered.filter (fun e => effectiveCategory e == c))) }

/-- The report summary record returned by getReportSummary.  The source
returns the full expense object for highest and lowest; the empty-subset
branch returns a stand-in with amount 0 and title N/A, modelled here as a
default expense carrying those two fields. -/
structure ReportSummary where
  total : Rat
  average : Rat
  count : Nat
  highest : Expense
  lowest : Expense
deriving Repr, DecidableEq

/-- The amount-0 / title-N/A stand-in of the empty branch of
getReportSummary (lines 500-508). -/
def emptyRecord : Expense :=
  { title := "N/A", amount := 0, category := "", date := ⟨0, 0, 1⟩,
    notes := "", isRecurring := false }

/-- getReportSummary, src/src/components/BudgetForm.js lines 497-533.  The
source initializes highest and lowest with the first record and then scans
the whole list, replacing only on a strict comparison. -/
def getReportSummary (l : List Expense) : ReportSummary :=
  match l with
  | [] => { total := 0, average := 0, count := 0,
            highest := emptyRecord, lowest := emptyRecord }
  | e :: t =>
    let total := sumAmounts (e :: t)
    { total := total
      average := total / ((e :: t).length : Rat)
      count := (e :: t).length
      highest := (e :: t).foldl (fun best x => if x.amount > best.amount then x else best) e
      lowest := (e :: t).foldl (fun best x => if x.amount < best.amount then x else best) e }

/-- The maxItems export option: the literal all or a parsed integer. -/
inductive MaxItems
  | all
  | num (n : Int)
deriving Repr, DecidableEq

/-- Export options (lines 208-215): the three include toggles, the item
cap, and the export-time date bounds (none models the empty string). -/
structure ExportOptions where
  includeSummary : Bool
  includeChart : Bool
  includeDetails : Bool
  maxItems : MaxItems
  dateFrom : Option Date
  dateTo : Option Date
deriving Repr, DecidableEq

/-- Descending-date ordering used by the sort comparators
(b.date minus a.date): a precedes b when the date of a is at least the
date of b. -/
def dateDescRel (a b : Expense) : Prop :=
  dateKey b.date ≤ dateKey a.date

instance : DecidableRel dateDescRel :=
  fun a b => inferInstanceAs (Decidable (dateKey b.date ≤ dateKey a.date))

instance : IsTotal Expense dateDescRel :=
  ⟨fun a b => le_total (dateKey b.date) (dateKey a.date)⟩

instance : IsTrans Expense dateDescRel :=
  ⟨fun _ _ _ hab hbc => le_trans hbc hab⟩

/-- The stable descending-by-date sort performed by
sort((a, b) => new Date(b.date) - new Date(a.date)). -/
def sortByDateDesc (l : List Expense) : List Expense :=
  List.insertionSort dateDescRel l

/-- The record preprocessing of exportReportData, src/src/components/
BudgetForm.js lines 668-696: optional export-time date bounds, then, for a
finite positive cap only, a descending-date sort followed by slice(0, n).
Note the maxItems-all branch performs no sort here. -/
def exportReportDataPrep (opts : ExportOptions) (filtered : List Expense) :
    List Expense :=
  let f1 := match opts.dateFrom with
    | none => filtered
    | some d => filtered.filter (fun e => decide (dateKey d ≤ dateKey e.date))
  let f2 := match opts.dateTo with
    | none => f1
    | some d => f1.filter (fun e => decide (dateKey e.date ≤ dateKey d))
  match opts.maxItems with
  | .all => f2
  | .num n => if 0 < n then (sortByDateDesc f2).take n.toNat else f2

/-- The record preprocessing embedded in exportToPDF, lines 1129-1161: same
date bounds and cap, but the maxItems-all branch does sort by date
descending. -/
def exportToPDFPrep (opts : ExportOptions) (filtered : List Expense) :
    List Expense :=
  let f1 := match opts.dateFrom with
    | none => filtered
    | some d => filtered.filter (fun e => decide (dateKey d ≤ dateKey e.date))
  let f2 := match opts.dateTo with
    | none => f1
    | some d => f1.filter (fun e => decide (dateKey e.date ≤ dateKey d))
  match opts.maxItems with
  | .all => sortByDateDesc f2
  | .num n => if 0 < n then (sortByDateDesc f2).take n.toNat else f2

/-- Round half up at the second decimal, modelling Number.toFixed(2). -/
def toFixed2 (q : Rat) : String :=
  let c : Int := Rat.floor (q * 100 + 1 / 2)
  let sign := if c < 0 then "-" else ""
  let a := c.natAbs
  let r := a % 100
  sign ++ toString (a / 100) ++ "." ++ (if r < 10 then "0" else "") ++ toString r

/-- The Intl USD currency formatting of formatAmount, without the
thousands grouping (no claim depends on grouping). -/
def formatAmount (q : Rat) : String :=
  if q < 0 then "-$" ++ toFixed2 (-q) else "$" ++ toFixed2 q

/-- toLocaleDateString rendering of a date, month/day/year. -/
def formatDate (d : Date) : String :=
  toString (d.month + 1) ++ "/" ++ toString d.day ++ "/" ++ toString d.year

/-- Display name of a category id (Uncategorized fallback). -/
def categoryDisplayName (catId : String) : String :=
  match EXPENSE_CATEGORIES.find? (fun c => c.id == catId) with
  | some c => c.name
  | none => "Uncategorized"

/-- The title or N/A fallback applied to summary rows in the source. -/
def titleOrNA (t : String) : String :=
  if t = "" then "N/A" else t

/-- escapeCsvValue on character lists, src/src/components/BudgetForm.js
lines 616-625: the value needs quoting when it contains a comma, a quote
or a newline. -/
def needsQuoteList (s : List Char) : Bool :=
  s.contains ',' || s.contains '"' || s.contains '\n'

/-- Doubling of internal quote characters (replace of quote by two
quotes). -/
def doubleQuotesList : List Char → List Char
  | [] => []
  | c :: cs => if c = '"' then '"' :: '"' :: doubleQuotesList cs
               else c :: doubleQuotesList cs

/-- escapeCsvValue on character lists: wrap in quotes with internal quotes
doubled exactly when quoting is needed. -/
def escapeCsvList (s : List Char) : List Char :=
  if needsQuoteList s then '"' :: (doubleQuotesList s ++ ['"']) else s

/-- escapeCsvValue, lines 616-625, on strings. -/
def escapeCsvValue (s : String) : String :=
  ⟨escapeCsvList s.data⟩

/-- Standard CSV unescaping of one field: collapse doubled quotes. -/
def collapseQuotes : List Char → List Char
  | [] => []
  | [c] => [c]
  | a :: b :: cs =>
    if a = '"' ∧ b = '"' then '"' :: collapseQuotes cs
    else a :: collapseQuotes (b :: cs)

/-- Standard CSV unescaping of one emitted field: strip a surrounding pair
of quotes and collapse doubled internal quotes; other fields are taken
verbatim. -/
def csvUnescapeList (s : List Char) : List Char :=
  if 2 ≤ s.length ∧ s.head? = some '"' ∧ s.getLast? = some '"' then
    collapseQuotes (s.drop 1).dropLast
  else s

/-- generateCSVData, lines 536-565: header row plus one data row per
record. -/
def generateCSVData (l : List Expense) : String :=
  l.foldl (fun csv e =>
      csv ++ formatDate e.date ++ "," ++ escapeCsvValue e.title ++ ","
        ++ escapeCsvValue (categoryDisplayName e.category) ++ ","
        ++ toFixed2 e.amount ++ "," ++ escapeCsvValue e.notes ++ ","
        ++ (if e.isRecurring then "Yes" else "No") ++ "\n")
    "Date,Title,Category,Amount,Notes,Recurring\n"

/-- The report title used by the summary renderers (lines 570-574). -/
def reportTitle (rt : ReportType) (year : Int) (month : Nat) : String :=
  match rt with
  | .monthly => "Expenses for " ++ getMonthName month ++ " " ++ toString year
  | .yearly => "Expenses for " ++ toString year
  | .category => "Expenses by Category"

/-- The per-report chart data feeding the summary breakdown (getChartData,
lines 453-464). -/
def chartBreakdownPairs (expenses : List Expense) (category : String)
    (rt : ReportType) (year : Int) (month : Nat) : List (String × Rat) :=
  match rt with
  | .monthly =>
    let c := generateMonthlyReportData expenses category year month
    (c.labels.map toString).zip c.data
  | .yearly =>
    let c := generateYearlyReportData expenses category year month
    c.labels.zip c.data
  | .category =>
    let c := generateCategoryReportData expenses category year month
    c.labels.zip c.data

/-- generateSummaryCSV, lines 568-613: title, the five statistic rows, and
the breakdown sourced from the chart data of the full filtered scope.
Category breakdown labels are escaped; period labels are interpolated
verbatim. -/
def generateSummaryCSV (expenses : List Expense) (category : String)
    (rt : ReportType) (year : Int) (month : Nat) : String :=
  let s := getReportSummary (getFilteredExpenses expenses category rt year month)
  let pairs := chartBreakdownPairs expenses category rt year month
  let head := reportTitle rt year month ++ "\n\n"
    ++ "Total Expenses," ++ toFixed2 s.total ++ "\n"
    ++ "Average Expense," ++ toFixed2 s.average ++ "\n"
    ++ "Number of Expenses," ++ toString s.count ++ "\n"
    ++ "Highest Expense," ++ toFixed2 s.highest.amount ++ ","
      ++ escapeCsvValue (titleOrNA s.highest.title) ++ "\n"
    ++ "Lowest Expense," ++ toFixed2 s.lowest.amount ++ ","
      ++ escapeCsvValue (titleOrNA s.lowest.title) ++ "\n\n"
  match rt with
  | .category =>
    head ++ "Category,Amount\n"
      ++ String.join (pairs.map (fun p => escapeCsvValue p.1 ++ "," ++ toFixed2 p.2 ++ "\n"))
  | .monthly =>
    head ++ "Day,Amount\n"
      ++ String.join (pairs.map (fun p => p.1 ++ "," ++ toFixed2 p.2 ++ "\n"))
  | .yearly =>
    head ++ "Month,Amount\n"
      ++ String.join (pairs.map (fun p => p.1 ++ "," ++ toFixed2 p.2 ++ "\n"))

/-- The summary portion of the CSV document assembled by exportToCSV
(lines 737-754): present only when includeSummary is set, and computed from
the full filtered scope, not from the capped record list. -/
def csvSummaryPart (expenses : List Expense) (category : String)
    (rt : ReportType) (year : Int) (month : Nat) (opts : ExportOptions) : String :=
  if opts.includeSummary then generateSummaryCSV expenses category rt year month
  else ""

/-- The detail portion of the CSV document: present only when
includeDetails is set, rendered from the preprocessed (date-bounded and
capped) record list. -/
def csvDetailPart (expenses : List Expense) (category : String)
    (rt : ReportType) (year : Int) (month : Nat) (opts : ExportOptions) : String :=
  if opts.includeDetails then
    generateCSVData
      (exportReportDataPrep opts (getFilteredExpenses expenses category rt year month))
  else ""

/-- exportToCSV, lines 737-767: the full text content of the produced CSV
document. -/
def exportToCSV (expenses : List Expense) (category : String)
    (rt : ReportType) (year : Int) (month : Nat) (opts : ExportOptions) : String :=
  csvSummaryPart expenses category rt year month opts
  ++ (if opts.includeSummary && opts.includeDetails then "\nDETAILED EXPENSES\n\n" else "")
  ++ csvDetailPart expenses category rt year month opts

/-- The rows of the Summary worksheet built by exportToExcel (lines
776-815), with amounts rendered at two decimals as in the source. -/
def excelSummaryRows (expenses : List Expense) (category : String)
    (rt : ReportType) (year : Int) (month : Nat) : List (List String) :=
  let s := getReportSummary (getFilteredExpenses expenses category rt year month)
  let pairs := chartBreakdownPairs expenses category rt year month
  let periodHeader := match rt with
    | .category => ["Category", "Amount"]
    | .monthly => ["Day", "Amount"]
    | .yearly => ["Month", "Amount"]
  [[reportTitle rt year month],
   [],
   ["Total Expenses", toFixed2 s.total],
   ["Average Expense", toFixed2 s.average],
   ["Number of Expenses", toString s.count],
   ["Highest Expense", toFixed2 s.highest.amount, titleOrNA s.highest.title],
   ["Lowest Expense", toFixed2 s.lowest.amount, titleOrNA s.lowest.title],
   []]
  ++ (periodHeader :: pairs.map (fun p => [p.1, toFixed2 p.2]))

/-- The rows of the Expenses worksheet built by exportToExcel (lines
878-893). -/
def excelExpenseRows (l : List Expense) : List (List String) :=
  ["Date", "Title", "Category", "Amount", "Notes", "Recurring"]
  :: l.map (fun e =>
      [formatDate e.date, e.title, categoryDisplayName e.category,
       toString e.amount, e.notes, if e.isRecurring then "Yes" else "No"])

/-- exportToExcel, lines 770-942, as the workbook it hands to the
spreadsheet writer: a list of named sheets.  With both toggles off the
workbook holds zero sheets (the source then calls the writer on it and the
writer rejects an empty workbook inside the try/catch). -/
def exportToExcelWorkbook (filteredExpenses : List Expense)
    (expenses : List Expense) (category : String) (rt : ReportType)
    (year : Int) (month : Nat) (opts : ExportOptions) :
    List (String × List (List String)) :=
  (if opts.includeSummary
   then [("Summary", excelSummaryRows expenses category rt year month)] else [])
  ++ (if opts.includeDetails then [("Expenses", excelExpenseRows filteredExpenses)] else [])

/-- The Excel export as invoked from exportReportData: the workbook built
from the preprocessed record list and the full-scope summary. -/
def excelExport (expenses : List Expense) (category : String)
    (rt : ReportType) (year : Int) (month : Nat) (opts : ExportOptions) :
    List (String × List (List String)) :=
  exportToExcelWorkbook
    (exportReportDataPrep opts (getFilteredExpenses expenses category rt year month))
    expenses category rt year month opts

/-- Title line of the PDF export (lines 975-979). -/
def pdfTitle (rt : ReportType) (year : Int) (month : Nat) : String :=
  match rt with
  | .monthly => "Expense Report - " ++ getMonthName month ++ " " ++ toString year
  | .yearly => "Expense Report - " ++ toString year
  | .category => "Expense Report - By Category"

/-- Truncation with ellipsis used by the PDF detail table (lines
1196-1199). -/
def truncateText (s : String) (maxLength : Nat) : String :=
  if s = "" then ""
  else if maxLength < s.length then s.take maxLength ++ "..." else s

/-- The text cells of one PDF detail row (lines 1201-1218). -/
def pdfDetailRowTexts (e : Expense) : List String :=
  [formatDate e.date, truncateText e.title 25,
   truncateText (categoryDisplayName e.category) 15, formatAmount e.amount]

/-- The summary lines drawn by the PDF export (lines 1024-1049), computed
from the full filtered scope. -/
def pdfSummaryTexts (expenses : List Expense) (category : String)
    (rt : ReportType) (year : Int) (month : Nat) : List String :=
  let s := getReportSummary (getFilteredExpenses expenses category rt year month)
  ["Report Summary",
   "Total Expenses: " ++ formatAmount s.total,
   "Average Expense: " ++ formatAmount s.average,
   "Number of Expenses: " ++ toString s.count,
   "Highest Expense: " ++ formatAmount s.highest.amount ++ " (" ++ titleOrNA s.highest.title ++ ")",
   "Lowest Expense: " ++ formatAmount s.lowest.amount ++ " (" ++ titleOrNA s.lowest.title ++ ")"]

/-- The summary section of the PDF document: present only when
includeSummary is set. -/
def pdfSummarySection (expenses : List Expense) (category : String)
    (rt : ReportType) (year : Int) (month : Nat) (opts : ExportOptions) : List String :=
  if opts.includeSummary then pdfSummaryTexts expenses category rt year month
  else []

/-- exportToPDF, lines 945-1250, abstracted to the ordered list of text
blocks drawn into the document (page geometry, the raster chart image and
repeated page headers are layout only and carry no claimed property).
The final branch (lines 1225-1229) draws the placeholder message when all
three sections are disabled. -/
def exportToPDFTexts (expenses : List Expense) (category : String)
    (rt : ReportType) (year : Int) (month : Nat) (opts : ExportOptions) : List String :=
  let filtered := getFilteredExpenses expenses category rt year month
  [pdfTitle rt year month]
  ++ pdfSummarySection expenses category rt year month opts
  ++ (if opts.includeChart then [reportTitle rt year month] else [])
  ++ (if opts.includeDetails then
        "Detailed Expenses" :: (exportToPDFPrep opts filtered).flatMap pdfDetailRowTexts
      else [])
  ++ (if !opts.includeSummary && !opts.includeChart && !opts.includeDetails then
        ["No content selected for export"]
      else [])

/-- The byCategory dictionary of getExpenseStats,
src/src/context/ExpenseContext.js lines 303-318, read back with the
or-zero fallback: summed amounts per effective category.  The empty-list
early return of the source coincides with the empty dictionary. -/
def getExpenseStatsByCategory (expenses : List Expense) (c : String) : Rat :=
  sumAmounts (expenses.filter (fun e => effectiveCategory e == c))

/-- The total of getExpenseStats. -/
def getExpenseStatsTotal (expenses : List Expense) : Rat :=
  sumAmounts expenses

/-- The derived budget status of getBudgetStatus,
src/src/context/ExpenseContext.js lines 321-337. -/
structure BudgetStatus where
  category : String
  amount : Rat
  spent : Rat
  remaining : Rat
  percentage : Rat
  isOverBudget : Bool
deriving Repr, DecidableEq

/-- The status derivation of one budget entry (the body of the map in
getBudgetStatus). -/
def budgetStatusOf (expenses : List Expense) (b : Budget) : BudgetStatus :=
  let spent0 := getExpenseStatsByCategory expenses b.category
  let remaining := b.amount - spent0
  { category := b.category
    amount := b.amount
    spent := spent0
    remaining := remaining
    percentage := if 0 < b.amount then spent0 / b.amount * 100 else 0
    isOverBudget := decide (remaining < 0) }

/-- getBudgetStatus, src/src/context/ExpenseContext.js lines 321-337. -/
def getBudgetStatus (expenses : List Expense) (budgets : List Budget) :
    List BudgetStatus :=
  budgets.map (budgetStatusOf expenses)

/-- First-maximum characterization: x occurs in l, every record before the
occurrence has a strictly smaller amount, every record after has a smaller
or equal amount.  This pins the record that wins the tie-break of
getReportSummary. -/
def IsFirstMax (l : List Expense) (x : Expense) : Prop :=
  ∃ l₁ l₂, l = l₁ ++ x :: l₂
    ∧ (∀ e ∈ l₁, e.amount < x.amount)
    ∧ (∀ e ∈ l₂, e.amount ≤ x.amount)

/-- First-minimum characterization, mirror image of IsFirstMax. -/
def IsFirstMin (l : List Expense) (x : Expense) : Prop :=
  ∃ l₁ l₂, l = l₁ ++ x :: l₂
    ∧ (∀ e ∈ l₁, x.amount < e.amount)
    ∧ (∀ e ∈ l₂, x.amount ≤ e.amount)

/-- Sample records for the conservation witness (the example scenario of
the specification). -/
def expensesW1 : List Expense :=
  [⟨"a", 100, "food", ⟨2024, 0, 5⟩, "", false⟩,
   ⟨"b", 50, "food", ⟨2024, 0, 20⟩, "", false⟩,
   ⟨"c", 200, "transportation", ⟨2024, 1, 1⟩, "", false⟩]

/-- Sample record list for the export counterexample. -/
def expensesX2 : List Expense :=
  [⟨"Lunch", 12, "food", ⟨2024, 0, 5⟩, "", false⟩]

/-- Export options with all three include toggles off. -/
def optsAllOffX2 : ExportOptions :=
  ⟨false, false, false, .all, none, none⟩

/-- An older record, listed first. -/
def eOldX3 : Expense := ⟨"old", 10, "food", ⟨2024, 0, 5⟩, "", false⟩

/-- A newer record, listed second. -/
def eNewX3 : Expense := ⟨"new", 20, "food", ⟨2024, 1, 1⟩, "", false⟩

/-- Export options with maxItems all. -/
def optsAllX3 : ExportOptions := ⟨true, true, true, .all, none, none⟩

/-- Export options with a finite positive cap. -/
def optsNumX3 : ExportOptions := ⟨true, true, true, .num 1, none, none⟩

/-- Sample records with ties at both extremes. -/
def expensesW8 : List Expense :=
  [⟨"first", 5, "food", ⟨2024, 0, 1⟩, "", false⟩,
   ⟨"second", 5, "food", ⟨2024, 0, 2⟩, "", false⟩,
   ⟨"third", 3, "food", ⟨2024, 0, 3⟩, "", false⟩,
   ⟨"fourth", 3, "food", ⟨2024, 0, 4⟩, "", false⟩]

/-- The budget of the specification example. -/
def budgetW9 : Budget := ⟨"food", 100, "monthly", ""⟩

/-- Records of the matching category summing to 150. -/
def expensesW9 : List Expense :=
  [⟨"groceries", 150, "food", ⟨2024, 0, 5⟩, "", false⟩]

@[simp] theorem sumAmounts_nil : sumAmounts [] = 0 := rfl

@[simp] theorem sumAmounts_cons (e : Expense) (l : List Expense) :
    sumAmounts (e :: l) = e.amount + sumAmounts l := by
  suffices h : ∀ (t : List Expense) (s : Rat),
      t.foldl (fun a x => a + x.amount) s = s + t.foldl (fun a x => a + x.amount) 0 by
    show (e :: l).foldl (fun a x => a + x.amount) 0 = e.amount + sumAmounts l
    rw [List.foldl_cons, h l (0 + e.amount)]
    unfold sumAmounts
    ring
  intro t
  induction t with
  | nil => intro s; simp
  | cons x ts ih =>
    intro s
    rw [List.foldl_cons, List.foldl_cons, ih (s + x.amount), ih (0 + x.amount)]
    ring

theorem sum_map_add {κ : Type} (keys : List κ) (f g : κ → Rat) :
    (keys.map (fun k => f k + g k)).sum = (keys.map f).sum + (keys.map g).sum := by
  induction keys with
  | nil => simp
  | cons k ks ih => simp only [List.map_cons, List.sum_cons, ih]; ring

theorem sum_if_not_mem {κ : Type} [BEq κ] [LawfulBEq κ] (a : κ) (v : Rat)
    (keys : List κ) (h : a ∉ keys) :
    (keys.map (fun k => if a == k then v else 0)).sum = 0 := by
  induction keys with
  | nil => simp
  | cons k ks ih =>
    have hk : ¬(a = k) := fun hak => h (hak ▸ List.mem_cons_self k ks)
    have hks : a ∉ ks := fun hm => h (List.mem_cons_of_mem _ hm)
    simp [hk, ih hks]

theorem sum_if_mem {κ : Type} [BEq κ] [LawfulBEq κ] (a : κ) (v : Rat)
    (keys : List κ) (hnd : keys.Nodup) (hmem : a ∈ keys) :
    (keys.map (fun k => if a == k then v else 0)).sum = v := by
  induction keys with
  | nil => simp at hmem
  | cons k ks ih =>
    rcases List.mem_cons.mp hmem with hak | hm
    · subst hak
      have hnm : a ∉ ks := (List.nodup_cons.mp hnd).1
      simp [sum_if_not_mem a v ks hnm]
    · have hk : ¬(a = k) := by
        rintro rfl
        exact (List.nodup_cons.mp hnd).1 hm
      simp [hk, ih (List.nodup_cons.mp hnd).2 hm]

theorem sum_partition {κ : Type} [BEq κ] [LawfulBEq κ] (key : Expense → κ)
    (keys : List κ) (hnd : keys.Nodup) :
    ∀ l : List Expense, (∀ e ∈ l, key e ∈ keys) →
      (keys.map (fun k => sumAmounts (l.filter (fun e => key e == k)))).sum
        = sumAmounts l := by
  intro l
  induction l with
  | nil => intro _; simp
  | cons e t ih =>
    intro hcov
    have hcovt : ∀ x ∈ t, key x ∈ keys := fun x hx => hcov x (List.mem_cons_of_mem _ hx)
    have hke : key e ∈ keys := hcov e (List.mem_cons_self _ _)
    have hstep : ∀ k : κ, sumAmounts ((e :: t).filter (fun x => key x == k))
        = (if key e == k then e.amount else 0)
          + sumAmounts (t.filter (fun x => key x == k)) := by
      intro k
      rw [List.filter_cons]
      by_cases h : key e = k
      · simp [h]
      · simp [h]
    have hmapeq : keys.map (fun k => sumAmounts ((e :: t).filter (fun x => key x == k)))
        = keys.map (fun k => (if key e == k then e.amount else 0)
            + sumAmounts (t.filter (fun x => key x == k))) := by
      exact congrArg (fun f => keys.map f) (funext hstep)
    rw [hmapeq, sum_map_add, sum_if_mem (key e) e.amount keys hnd hke, ih hcovt,
      sumAmounts_cons]

theorem mem_of_mem_getFilteredExpenses {expenses : List Expense} {cat : String}
    {rt : ReportType} {y : Int} {m : Nat} {e : Expense}
    (h : e ∈ getFilteredExpenses expenses cat rt y m) : e ∈ expenses := by
  have hbase : ∀ x ∈ (if cat = "" then expenses
      else expenses.filter (fun a => a.category == cat)), x ∈ expenses := by
    intro x hx
    split at hx
    · exact hx
    · exact (List.mem_filter.mp hx).1
  cases rt with
  | monthly => exact hbase _ (List.mem_filter.mp h).1
  | yearly => exact hbase _ (List.mem_filter.mp h).1
  | category => exact hbase _ h

theorem date_cond_of_mem_monthly {expenses : List Expense} {cat : String}
    {y : Int} {m : Nat} {e : Expense}
    (h : e ∈ getFilteredExpenses expenses cat .monthly y m) :
    e.date.year = y ∧ e.date.month = m := by
  have hc := (List.mem_filter.mp h).2
  simpa using hc

theorem date_cond_of_mem_yearly {expenses : List Expense} {cat : String}
    {y : Int} {m : Nat} {e : Expense}
    (h : e ∈ getFilteredExpenses expenses cat .yearly y m) :
    e.date.year = y := by
  have hc := (List.mem_filter.mp h).2
  simpa using hc

theorem discovered_loop_nodup (l : List Expense) :
    ∀ acc : List String, acc.Nodup →
      (l.foldl (fun acc e =>
        if effectiveCategory e ∈ acc then acc
        else acc ++ [effectiveCategory e]) acc).Nodup := by
  induction l with
  | nil => intro acc h; exact h
  | cons e t ih =>
    intro acc h
    rw [List.foldl_cons]
    by_cases hc : effectiveCategory e ∈ acc
    · rw [if_pos hc]; exact ih acc h
    · rw [if_neg hc]
      refine ih _ ?_
      simp [List.nodup_append, h, hc]

theorem discovered_loop_sub (l : List Expense) :
    ∀ acc : List String,
      acc ⊆ l.foldl (fun acc e =>
        if effectiveCategory e ∈ acc then acc
        else acc ++ [effectiveCategory e]) acc := by
  induction l with
  | nil => intro acc; exact fun _ hx => hx
  | cons e t ih =>
    intro acc
    rw [List.foldl_cons]
    have step : acc ⊆ (if effectiveCategory e ∈ acc then acc
        else acc ++ [effectiveCategory e]) := by
      by_cases hc : effectiveCategory e ∈ acc
      · rw [if_pos hc]; exact fun _ hx => hx
      · rw [if_neg hc]; exact fun x hx => List.mem_append_left _ hx
    exact step.trans (ih _)

theorem discovered_loop_mem (l : List Expense) :
    ∀ (acc : List String) (e : Expense), e ∈ l →
      effectiveCategory e ∈ l.foldl (fun acc e =>
        if effectiveCategory e ∈ acc then acc
        else acc ++ [effectiveCategory e]) acc := by
  induction l with
  | nil => intro _ _ he; simp at he
  | cons x t ih =>
    intro acc e he
    rw [List.foldl_cons]
    rcases List.mem_cons.mp he with rfl | ht
    · have hin : effectiveCategory e ∈ (if effectiveCategory e ∈ acc then acc
          else acc ++ [effectiveCategory e]) := by
        by_cases hc : effectiveCategory e ∈ acc
        · rw [if_pos hc]; exact hc
        · rw [if_neg hc]; exact List.mem_append_right _ (List.mem_singleton.mpr rfl)
      exact discovered_loop_sub t _ hin
    · exact ih _ e ht

theorem discoveredCategories_nodup (l : List Expense) :
    (discoveredCategories l).Nodup :=
  discovered_loop_nodup l [] List.nodup_nil

theorem mem_discoveredCategories {l : List Expense} {e : Expense}
    (he : e ∈ l) : effectiveCategory e ∈ discoveredCategories l :=
  discovered_loop_mem l [] e he

theorem collapseQuotes_cons_ne (c : Char) (hc : c ≠ '"') (cs : List Char) :
    collapseQuotes (c :: cs) = c :: collapseQuotes cs := by
  cases cs with
  | nil => rfl
  | cons b rest =>
    rw [collapseQuotes, if_neg]
    rintro ⟨h1, _⟩
    exact hc h1

theorem collapse_doubleQuotes (s : List Char) :
    collapseQuotes (doubleQuotesList s) = s := by
  induction s with
  | nil => rfl
  | cons c cs ih =>
    by_cases hc : c = '"'
    · subst hc
      rw [doubleQuotesList, if_pos rfl, collapseQuotes, if_pos ⟨rfl, rfl⟩, ih]
    · rw [doubleQuotesList, if_neg hc, collapseQuotes_cons_ne c hc, ih]

theorem csvUnescape_escape (s : List Char) :
    csvUnescapeList (escapeCsvList s) = s := by
  unfold escapeCsvList
  by_cases h : needsQuoteList s = true
  · rw [if_pos h]
    unfold csvUnescapeList
    rw [if_pos ?side]
    case side =>
      refine ⟨by simp, rfl, ?_⟩
      rw [← List.cons_append, List.getLast?_concat]
    · rw [List.drop_one, List.tail_cons, List.dropLast_concat, collapse_doubleQuotes]
  · rw [if_neg h]
    unfold csvUnescapeList
    rw [if_neg ?noquote]
    case noquote =>
      rintro ⟨hlen, hhead, hlast⟩
      apply h
      cases s with
      | nil => simp at hhead
      | cons a as =>
        have ha : a = '"' := by simpa using hhead
        subst ha
        simp [needsQuoteList]

theorem foldl_firstMax (t : List Expense) :
    ∀ b : Expense,
      IsFirstMax (b :: t)
        (t.foldl (fun best x => if x.amount > best.amount then x else best) b) := by
  induction t with
  | nil =>
    intro b
    exact ⟨[], [], rfl, by simp, by simp⟩
  | cons e t ih =>
    intro b
    rw [List.foldl_cons]
    by_cases hgt : e.amount > b.amount
    · rw [if_pos hgt]
      obtain ⟨l₁, l₂, heq, hlt, hle⟩ := ih e
      refine ⟨b :: l₁, l₂, by rw [List.cons_append, ← heq], ?_, hle⟩
      intro x hx
      rcases List.mem_cons.mp hx with rfl | hx₁
      · -- the initial best is strictly below the final result
        cases l₁ with
        | nil =>
          rw [List.nil_append] at heq
          obtain ⟨he, -⟩ := List.cons.inj heq
          rw [← he]
          exact hgt
        | cons a l₁t =>
          rw [List.cons_append] at heq
          obtain ⟨ha, -⟩ := List.cons.inj heq
          exact lt_trans hgt (ha ▸ hlt a (List.mem_cons_self a l₁t))
      · exact hlt x hx₁
    · rw [if_neg hgt]
      push_neg at hgt
      obtain ⟨l₁, l₂, heq, hlt, hle⟩ := ih b
      cases l₁ with
      | nil =>
        rw [List.nil_append] at heq
        obtain ⟨hb, ht⟩ := List.cons.inj heq
        refine ⟨[], e :: t, by rw [List.nil_append, ← hb], by simp, ?_⟩
        intro x hx
        rcases List.mem_cons.mp hx with rfl | hx₁
        · rw [← hb]; exact hgt
        · exact hle x (ht ▸ hx₁)
      | cons a l₁t =>
        rw [List.cons_append] at heq
        obtain ⟨ha, ht⟩ := List.cons.inj heq
        refine ⟨b :: e :: l₁t, l₂, ?_, ?_, hle⟩
        · rw [List.cons_append, List.cons_append, ← ht]
        · intro x hx
          have hbr := hlt a (List.mem_cons_self a l₁t)
          rw [← ha] at hbr
          rcases List.mem_cons.mp hx with rfl | hx₁
          · exact hbr
          · rcases List.mem_cons.mp hx₁ with rfl | hx₂
            · exact lt_of_le_of_lt hgt hbr
            · exact hlt x (List.mem_cons_of_mem a hx₂)

theorem foldl_firstMin (t : List Expense) :
    ∀ b : Expense,
      IsFirstMin (b :: t)
        (t.foldl (fun best x => if x.amount < best.amount then x else best) b) := by
  induction t with
  | nil =>
    intro b
    exact ⟨[], [], rfl, by simp, by simp⟩
  | cons e t ih =>
    intro b
    rw [List.foldl_cons]
    by_cases hgt : e.amount < b.amount
    · rw [if_pos hgt]
      obtain ⟨l₁, l₂, heq, hlt, hle⟩ := ih e
      refine ⟨b :: l₁, l₂, by rw [List.cons_append, ← heq], ?_, hle⟩
      intro x hx
      rcases List.mem_cons.mp hx with rfl | hx₁
      · cases l₁ with
        | nil =>
          rw [List.nil_append] at heq
          obtain ⟨he, -⟩ := List.cons.inj heq
          rw [← he]
          exact hgt
        | cons a l₁t =>
          rw [List.cons_append] at heq
          obtain ⟨ha, -⟩ := List.cons.inj heq
          exact lt_trans (ha ▸ hlt a (List.mem_cons_self a l₁t)) hgt
      · exact hlt x hx₁
    · rw [if_neg hgt]
      push_neg at hgt
      obtain ⟨l₁, l₂, heq, hlt, hle⟩ := ih b
      cases l₁ with
      | nil =>
        rw [List.nil_append] at heq
        obtain ⟨hb, ht⟩ := List.cons.inj heq
        refine ⟨[], e :: t, by rw [List.nil_append, ← hb], by simp, ?_⟩
        intro x hx
        rcases List.mem_cons.mp hx with rfl | hx₁
        · rw [← hb]; exact hgt
        · exact hle x (ht ▸ hx₁)
      | cons a l₁t =>
        rw [List.cons_append] at heq
        obtain ⟨ha, ht⟩ := List.cons.inj heq
        refine ⟨b :: e :: l₁t, l₂, ?_, ?_, hle⟩
        · rw [List.cons_append, List.cons_append, ← ht]
        · intro x hx
          have hbr := hlt a (List.mem_cons_self a l₁t)
          rw [← ha] at hbr
          rcases List.mem_cons.mp hx with rfl | hx₁
          · exact hbr
          · rcases List.mem_cons.mp hx₁ with rfl | hx₂
            · exact lt_of_lt_of_le hbr hgt
            · exact hlt x (List.mem_cons_of_mem a hx₂)

/-- Claim C7: the report summary computed on an empty expense subset yields
total 0, average 0, count 0, and highest and lowest entries whose amount
is 0. -/
theorem claim7_empty_summary :
    (getReportSummary []).total = 0
    ∧ (getReportSummary []).average = 0
    ∧ (getReportSummary []).count = 0
    ∧ (getReportSummary []).highest.amount = 0
    ∧ (getReportSummary []).lowest.amount = 0 :=
  ⟨rfl, rfl, rfl, rfl, rfl⟩

/-- Claim C10: when the active report type is category, the filtered subset
is independent of the selected year and month — only the category predicate
is applied, no time-period predicate. -/
theorem claim10_category_mode_time_independent (expenses : List Expense)
    (category : String) (y1 y2 : Int) (m1 m2 : Nat) :
    getFilteredExpenses expenses category .category y1 m1
      = getFilteredExpenses expenses category .category y2 m2 := rfl

/-- Claim C5: the delimited-text escaping wraps a value in quotes with
internal quotes doubled exactly when the value contains a comma, a quote or
a newline; the emitted field re-parses to the original string under
standard CSV unescaping; and the example title is emitted in the
documented doubled-quote form. -/
theorem claim5_csv_escaping_roundtrip (s : List Char) :
    escapeCsvList s
        = (if needsQuoteList s then '"' :: (doubleQuotesList s ++ ['"']) else s)
    ∧ csvUnescapeList (escapeCsvList s) = s
    ∧ escapeCsvValue "Lunch, \"quick\"" = "\"Lunch, \"\"quick\"\"\"" :=
  ⟨rfl, csvUnescape_escape s, by decide⟩

/-- Claim C4: the summary statistics block of an export (the five statistic
rows and the breakdown rows, in each of the three formats) is computed from
the full filtered scope and is therefore identical for any two values of
the maxItems cap. -/
theorem claim4_summary_independent_of_maxItems (expenses : List Expense)
    (category : String) (rt : ReportType) (year : Int) (month : Nat)
    (opts : ExportOptions) (m1 m2 : MaxItems) :
    csvSummaryPart expenses category rt year month { opts with maxItems := m1 }
        = csvSummaryPart expenses category rt year month { opts with maxItems := m2 }
    ∧ List.lookup "Summary"
          (excelExport expenses category rt year month { opts with maxItems := m1 })
        = List.lookup "Summary"
          (excelExport expenses category rt year month { opts with maxItems := m2 })
    ∧ pdfSummarySection expenses category rt year month { opts with maxItems := m1 }
        = pdfSummarySection expenses category rt year month { opts with maxItems := m2 } := by
  obtain ⟨is_, ic, idet, mi, df, dt⟩ := opts
  refine ⟨rfl, ?_, rfl⟩
  unfold excelExport exportToExcelWorkbook
  cases is_ <;> cases idet <;> simp [List.lookup]

/-- Claim C2 (amended): with all three include toggles off, the PDF export
draws the placeholder message into a non-empty document, while the CSV
export produces the empty document and the Excel export builds a workbook
with zero sheets. -/
theorem claim2_all_toggles_off_amended (expenses : List Expense)
    (category : String) (rt : ReportType) (year : Int) (month : Nat)
    (opts : ExportOptions) (hs : opts.includeSummary = false)
    (hc : opts.includeChart = false) (hd : opts.includeDetails = false) :
    exportToCSV expenses category rt year month opts = ""
    ∧ excelExport expenses category rt year month opts = []
    ∧ "No content selected for export" ∈ exportToPDFTexts expenses category rt year month opts
    ∧ exportToPDFTexts expenses category rt year month opts ≠ [] := by
  refine ⟨?_, ?_, ?_, ?_⟩ <;>
    simp [exportToCSV, csvSummaryPart, csvDetailPart, excelExport,
      exportToExcelWorkbook, exportToPDFTexts, pdfSummarySection, hs, hc, hd]

/-- Witness for claim C2: the amended statement evaluated at a concrete
empty expense list and the all-off options. -/
theorem claim2_witness :
    exportToCSV [] "" ReportType.monthly 2024 0 optsAllOffX2 = ""
    ∧ excelExport [] "" ReportType.monthly 2024 0 optsAllOffX2 = []
    ∧ "No content selected for export"
        ∈ exportToPDFTexts [] "" ReportType.monthly 2024 0 optsAllOffX2
    ∧ exportToPDFTexts [] "" ReportType.monthly 2024 0 optsAllOffX2 ≠ [] :=
  claim2_all_toggles_off_amended [] "" ReportType.monthly 2024 0 optsAllOffX2 rfl rfl rfl

/-- Counterexample for claim C2 as stated: invoking the delimited-text
export with all three include toggles false on a non-empty record set
produces the empty document, not a non-empty placeholder document. -/
theorem claim2_counterexample :
    exportToCSV expensesX2 "" ReportType.monthly 2024 0 optsAllOffX2 = "" := by
  decide

/-- Claim C1: for every expense list (with representable dates), category
selection and target period, the sum of the bucket values of each of the
three aggregation modes equals the sum of the amounts of the filtered
subset fed into the aggregation (conservation). -/
theorem claim1_aggregation_conservation (expenses : List Expense)
    (category : String) (year : Int) (month : Nat)
    (h : ∀ e ∈ expenses, ValidDate e.date) :
    (generateMonthlyReportData expenses category year month).data.sum
        = sumAmounts (getFilteredExpenses expenses category .monthly year month)
    ∧ (generateYearlyReportData expenses category year month).data.sum
        = sumAmounts (getFilteredExpenses expenses category .yearly year month)
    ∧ (generateCategoryReportData expenses category year month).data.sum
        = sumAmounts (getFilteredExpenses expenses category .category year month) := by
  refine ⟨?_, ?_, ?_⟩
  · -- monthly: partition the filtered subset by day of month
    have hnd : ((List.range (daysInMonth year month)).map (fun i => i + 1)).Nodup :=
      List.Nodup.map (fun a b hab => by omega) (List.nodup_range _)
    have hcov : ∀ e ∈ getFilteredExpenses expenses category .monthly year month,
        e.date.day ∈ (List.range (daysInMonth year month)).map (fun i => i + 1) := by
      intro e he
      obtain ⟨hy, hm⟩ := date_cond_of_mem_monthly he
      obtain ⟨-, hd1, hd2⟩ := h e (mem_of_mem_getFilteredExpenses he)
      rw [hy, hm] at hd2
      simp only [List.mem_map, List.mem_range]
      exact ⟨e.date.day - 1, by omega, by omega⟩
    exact sum_partition (fun e => e.date.day) _ hnd _ hcov
  · -- yearly: partition the filtered subset by month of year
    have hcov : ∀ e ∈ getFilteredExpenses expenses category .yearly year month,
        e.date.month ∈ List.range 12 := by
      intro e he
      obtain ⟨hm, -, -⟩ := h e (mem_of_mem_getFilteredExpenses he)
      exact List.mem_range.mpr hm
    exact sum_partition (fun e => e.date.month) _ (List.nodup_range _) _ hcov
  · -- category: partition by the discovered category keys
    have hcov : ∀ e ∈ getFilteredExpenses expenses category .category year month,
        effectiveCategory e
          ∈ discoveredCategories (getFilteredExpenses expenses category .category year month) :=
      fun _ he => mem_discoveredCategories he
    exact sum_partition effectiveCategory _
      (discoveredCategories_nodup _) _ hcov

/-- Witness for claim C1 at the example scenario of the specification. -/
theorem claim1_witness :
    (generateMonthlyReportData expensesW1 "" 2024 0).data.sum
        = sumAmounts (getFilteredExpenses expensesW1 "" .monthly 2024 0)
    ∧ (generateYearlyReportData expensesW1 "" 2024 0).data.sum
        = sumAmounts (getFilteredExpenses expensesW1 "" .yearly 2024 0)
    ∧ (generateCategoryReportData expensesW1 "" 2024 0).data.sum
        = sumAmounts (getFilteredExpenses expensesW1 "" .category 2024 0) :=
  claim1_aggregation_conservation expensesW1 "" 2024 0 (by decide)

/-- Claim C6: the by-day aggregation emits exactly one bucket per calendar
day of the target month in ascending day order (1..daysInMonth, leap-year
aware: 29 labels for February of a leap year, 28 otherwise), and a day with
no expenses holds the bucket value 0. -/
theorem claim6_day_buckets (expenses : List Expense) (category : String)
    (year : Int) (month d : Nat) (_hm : month < 12)
    (hd1 : 1 ≤ d) (hd2 : d ≤ daysInMonth year month)
    (h0 : (getFilteredExpenses expenses category .monthly year month).filter
        (fun e => e.date.day == d) = []) :
    (generateMonthlyReportData expenses category year month).labels
        = List.range' 1 (daysInMonth year month)
    ∧ (generateMonthlyReportData expenses category year month).data.length
        = daysInMonth year month
    ∧ (generateMonthlyReportData expenses category year 1).labels.length
        = (if isLeapYear year then 29 else 28)
    ∧ (generateMonthlyReportData expenses category year month).data[d - 1]?
        = some 0 := by
  refine ⟨?_, ?_, ?_, ?_⟩
  · show (List.range (daysInMonth year month)).map (fun i => i + 1)
        = List.range' 1 (daysInMonth year month)
    rw [List.range'_eq_map_range]
    exact List.map_congr_left fun a _ => by omega
  · show (((List.range (daysInMonth year month)).map (fun i => i + 1)).map
        (fun day => expensesByDay (getFilteredExpenses expenses category .monthly year month) day)).length
        = daysInMonth year month
    simp
  · show ((List.range (daysInMonth year 1)).map (fun i => i + 1)).length = _
    simp [daysInMonth]
  · show (((List.range (daysInMonth year month)).map (fun i => i + 1)).map
        (fun day => expensesByDay (getFilteredExpenses expenses category .monthly year month) day))[d - 1]?
        = some 0
    have hl : ((List.range (daysInMonth year month)).map (fun i => i + 1))[d - 1]?
        = some d := by
      rw [List.getElem?_map, List.getElem?_range (by omega)]
      simp only [Option.map_some']
      congr 1
      omega
    rw [List.getElem?_map, hl]
    simp only [Option.map_some']
    rw [expensesByDay, h0, sumAmounts_nil]

/-- Witness for claim C6: February 2024 is a leap February and day 29 of an
empty expense list holds bucket value 0. -/
theorem claim6_witness :
    (generateMonthlyReportData [] "" 2024 1).labels = List.range' 1 (daysInMonth 2024 1)
    ∧ (generateMonthlyReportData [] "" 2024 1).data.length = daysInMonth 2024 1
    ∧ (generateMonthlyReportData [] "" 2024 1).labels.length
        = (if isLeapYear 2024 then 29 else 28)
    ∧ (generateMonthlyReportData [] "" 2024 1).data[29 - 1]? = some 0 :=
  claim6_day_buckets [] "" 2024 1 29 (by decide) (by decide) (by decide) rfl

/-- Claim C3 (amended): with no export-time date bounds, a finite positive
cap makes both the CSV/Excel preprocessing and the PDF detail path emit the
first n records of the stable descending-date sort of the filtered subset;
with maxItems all, the PDF detail path sorts by date descending while the
CSV/Excel preprocessing keeps the filtered subset in its original order.
The sort is a permutation of its input and is pairwise descending by
date. -/
theorem claim3_maxItems_amended (l : List Expense) (opts : ExportOptions)
    (hf : opts.dateFrom = none) (ht : opts.dateTo = none) :
    exportReportDataPrep opts l
        = (match opts.maxItems with
           | .all => l
           | .num n => if 0 < n then (sortByDateDesc l).take n.toNat else l)
    ∧ exportToPDFPrep opts l
        = (match opts.maxItems with
           | .all => sortByDateDesc l
           | .num n => if 0 < n then (sortByDateDesc l).take n.toNat else l)
    ∧ (sortByDateDesc l).Perm l
    ∧ List.Pairwise dateDescRel (sortByDateDesc l) := by
  obtain ⟨is_, ic, idet, mi, df, dt⟩ := opts
  simp only at hf ht
  subst hf
  subst ht
  refine ⟨?_, ?_, List.perm_insertionSort _ _, List.sorted_insertionSort _ _⟩
  · cases mi <;> rfl
  · cases mi <;> rfl

/-- Witness for claim C3 at a concrete two-record list and a finite cap of
one. -/
theorem claim3_witness :
    exportReportDataPrep optsNumX3 [eOldX3, eNewX3]
        = (match optsNumX3.maxItems with
           | .all => [eOldX3, eNewX3]
           | .num n => if 0 < n then (sortByDateDesc [eOldX3, eNewX3]).take n.toNat
                       else [eOldX3, eNewX3])
    ∧ exportToPDFPrep optsNumX3 [eOldX3, eNewX3]
        = (match optsNumX3.maxItems with
           | .all => sortByDateDesc [eOldX3, eNewX3]
           | .num n => if 0 < n then (sortByDateDesc [eOldX3, eNewX3]).take n.toNat
                       else [eOldX3, eNewX3])
    ∧ (sortByDateDesc [eOldX3, eNewX3]).Perm [eOldX3, eNewX3]
    ∧ List.Pairwise dateDescRel (sortByDateDesc [eOldX3, eNewX3]) :=
  claim3_maxItems_amended [eOldX3, eNewX3] optsNumX3 rfl rfl

/-- Counterexample for claim C3 as stated: with maxItems all, the record
list produced by the CSV/Excel preprocessing keeps the original order,
which differs from the descending-date order the claim prescribes. -/
theorem claim3_counterexample :
    exportReportDataPrep optsAllX3 [eOldX3, eNewX3] = [eOldX3, eNewX3]
    ∧ sortByDateDesc [eOldX3, eNewX3] = [eNewX3, eOldX3]
    ∧ [eOldX3, eNewX3] ≠ ([eNewX3, eOldX3] : List Expense) := by
  refine ⟨rfl, by decide, by decide⟩

/-- Claim C8: on a non-empty subset, the highest (resp. lowest) record of
the report summary is the first record in iteration order among those
sharing the extreme amount: everything before it is strictly below (resp.
above) it, everything after it is no greater (resp. no smaller). -/
theorem claim8_extreme_tiebreak (l : List Expense) (h : l ≠ []) :
    IsFirstMax l (getReportSummary l).highest
    ∧ IsFirstMin l (getReportSummary l).lowest := by
  match l with
  | [] => exact absurd rfl h
  | e :: t =>
    constructor
    · show IsFirstMax (e :: t)
        ((e :: t).foldl (fun best x => if x.amount > best.amount then x else best) e)
      rw [List.foldl_cons, ite_self]
      exact foldl_firstMax t e
    · show IsFirstMin (e :: t)
        ((e :: t).foldl (fun best x => if x.amount < best.amount then x else best) e)
      rw [List.foldl_cons, ite_self]
      exact foldl_firstMin t e

/-- Witness for claim C8 on a list with ties at both extremes. -/
theorem claim8_witness :
    IsFirstMax expensesW8 (getReportSummary expensesW8).highest
    ∧ IsFirstMin expensesW8 (getReportSummary expensesW8).lowest :=
  claim8_extreme_tiebreak expensesW8 (by decide)

/-- Claim C9: the derived budget status satisfies spent = sum of amounts of
the expenses whose category matches the budget category, remaining = amount
minus spent, percentage = 100 times spent over amount (0 when amount is 0),
and isOverBudget exactly when remaining is negative. -/
theorem claim9_budget_status (expenses : List Expense) (b : Budget)
    (h1 : b.category ≠ "") (h2 : b.category ≠ "uncategorized")
    (h3 : 0 ≤ b.amount) :
    getBudgetStatus expenses [b] = [budgetStatusOf expenses b]
    ∧ (budgetStatusOf expenses b).spent
        = sumAmounts (expenses.filter (fun e => e.category == b.category))
    ∧ (budgetStatusOf expenses b).remaining
        = b.amount - (budgetStatusOf expenses b).spent
    ∧ (budgetStatusOf expenses b).percentage
        = (if b.amount = 0 then 0
           else 100 * (budgetStatusOf expenses b).spent / b.amount)
    ∧ ((budgetStatusOf expenses b).isOverBudget = true
        ↔ (budgetStatusOf expenses b).remaining < 0) := by
  have hp : ∀ e : Expense,
      (effectiveCategory e == b.category) = (e.category == b.category) := by
    intro e
    unfold effectiveCategory
    by_cases hce : e.category = ""
    · rw [if_pos hce, hce]
      have l1 : ("uncategorized" == b.category) = false :=
        beq_eq_false_iff_ne.mpr (fun hh => h2 hh.symm)
      have l2 : ("" == b.category) = false :=
        beq_eq_false_iff_ne.mpr (fun hh => h1 hh.symm)
      rw [l1, l2]
    · rw [if_neg hce]
  refine ⟨rfl, ?_, rfl, ?_, ?_⟩
  · show getExpenseStatsByCategory expenses b.category
        = sumAmounts (expenses.filter (fun e => e.category == b.category))
    unfold getExpenseStatsByCategory
    rw [show (fun e => effectiveCategory e == b.category)
        = (fun e => e.category == b.category) from funext hp]
  · show (if 0 < b.amount
        then getExpenseStatsByCategory expenses b.category / b.amount * 100 else 0)
        = (if b.amount = 0 then 0
           else 100 * (budgetStatusOf expenses b).spent / b.amount)
    rcases lt_or_eq_of_le h3 with hpos | hzero
    · rw [if_pos hpos, if_neg (ne_of_gt hpos)]
      show getExpenseStatsByCategory expenses b.category / b.amount * 100
          = 100 * getExpenseStatsByCategory expenses b.category / b.amount
      rw [div_mul_eq_mul_div, mul_comm]
    · rw [if_neg (by rw [← hzero]; exact lt_irrefl 0), if_pos hzero.symm]
  · show (decide (b.amount - getExpenseStatsByCategory expenses b.category < 0) = true)
        ↔ (budgetStatusOf expenses b).remaining < 0
    exact decide_eq_true_iff

/-- Witness for claim C9 at the specification example: a budget of 100 for
the food category against 150 of matching spending yields spent 150,
remaining -50, percentage 150 and the over-budget flag. -/
theorem claim9_witness :
    (getBudgetStatus expensesW9 [budgetW9] = [budgetStatusOf expensesW9 budgetW9]
     ∧ (budgetStatusOf expensesW9 budgetW9).spent
         = sumAmounts (expensesW9.filter (fun e => e.category == budgetW9.category))
     ∧ (budgetStatusOf expensesW9 budgetW9).remaining
         = budgetW9.amount - (budgetStatusOf expensesW9 budgetW9).spent
     ∧ (budgetStatusOf expensesW9 budgetW9).percentage
         = (if budgetW9.amount = 0 then 0
            else 100 * (budgetStatusOf expensesW9 budgetW9).spent / budgetW9.amount)
     ∧ ((budgetStatusOf expensesW9 budgetW9).isOverBudget = true
         ↔ (budgetStatusOf expensesW9 budgetW9).remaining < 0))
    ∧ ((budgetStatusOf expensesW9 budgetW9).spent = 150
       ∧ (budgetStatusOf expensesW9 budgetW9).remaining = -50
       ∧ (budgetStatusOf expensesW9 budgetW9).percentage = 150
       ∧ (budgetStatusOf expensesW9 budgetW9).isOverBudget = true) :=
  ⟨claim9_budget_status expensesW9 budgetW9 (by decide) (by decide) (by norm_num [budgetW9]),
   by
     refine ⟨?_, ?_, ?_, ?_⟩ <;>
       simp [budgetStatusOf, getExpenseStatsByCategory, sumAmounts,
         effectiveCategory, expensesW9, budgetW9, List.filter] <;>
       norm_num⟩
